import Mathlib

/-!
Shallow embedding of the iommufd device/PASID attachment protocol, translated
from drivers/iommu/iommufd/device.c and drivers/iommu/iommufd/pasid.c.

Devices, groups, hardware pagetables (HWPT) and address spaces (IOAS) are
identified by natural numbers.  External collaborators (the iommu core, the
io-pagetable layer, the object registry) are black boxes per the spec; their
results are supplied by an oracle environment Env, and the pieces of shared
state they maintain (reserved IOVA bookkeeping, group attach state, DMA
ownership) are carried explicitly in State.
-/

/-- Error codes returned by the C code (negative errnos in the source). -/
inductive Errno
  | EINVAL
  | ENODEV
  | EBUSY
  | ENOMEM
  | EPERM
  deriving DecidableEq, Repr

/-- Decidable equality for the Except results of the PASID operations. -/
instance instDecEqExcept {e a : Type} [DecidableEq e] [DecidableEq a] :
    DecidableEq (Except e a)
  | .ok x, .ok y =>
    if h : x = y then isTrue (by rw [h])
    else isFalse (fun hc => h (by injection hc))
  | .ok _, .error _ => isFalse (fun hc => Except.noConfusion hc)
  | .error _, .ok _ => isFalse (fun hc => Except.noConfusion hc)
  | .error x, .error y =>
    if h : x = y then isTrue (by rw [h])
    else isFalse (fun hc => h (by injection hc))

/-- One hardware pagetable object: struct iommufd_hw_pagetable.  The users
field is the obj.users refcount, devices is the hwpt devices list (list_add
prepends), and ioas is the back reference hwpt to its owning IOAS. -/
structure Hwpt where
  users : Nat
  devices : List Nat
  enforce_cache_coherency : Bool
  msi_cookie : Bool
  auto_domain : Bool
  ioas : Nat
  deriving DecidableEq, Repr

/-- Pointwise update of a function out of Nat. -/
def fupd {α : Type} (f : Nat → α) (k : Nat) (v : α) : Nat → α :=
  fun k' => if k' = k then v else f k'

/-- Pointwise update of a two-argument function out of Nat. -/
def fupd2 {α : Type} (f : Nat → Nat → α) (k1 k2 : Nat) (v : α) : Nat → Nat → α :=
  fun k1' k2' => if k1' = k1 ∧ k2' = k2 then v else f k1' k2'

/-- The mutable state of the protocol: the HWPT objects, the per-device
binding records (idev fields), the io-pagetable bookkeeping (reserved IOVA
per device, domain registration per HWPT), the iommu core state (group
attach per HWPT and group, DMA ownership, group reference counts), the per
IOAS member list, and instrumentation counters (kernel WARN firings and
MSI cookie installations). -/
structure State where
  hwpts : Nat → Hwpt
  hwptExists : Nat → Bool
  idevHwpt : Nat → Option Nat
  idevUsers : Nat → Nat
  idevGroup : Nat → Option Nat
  pasidHwpts : Nat → Nat → Option Nat
  reserved : Nat → Bool
  groupAttached : Nat → Nat → Bool
  domainRegistered : Nat → Bool
  ioasList : Nat → List Nat
  dmaOwner : Nat → Option Nat
  groupRefs : Nat → Nat
  warnCount : Nat
  msiInstalls : Nat → Nat

/-- Oracle environment: static device facts and the result values of the
black-box collaborator calls (spec section 6 contracts). -/
structure Env where
  devGroup : Nat → Nat
  devCoherent : Nat → Bool
  devEnforce : Nat → Bool
  devIntrRemap : Nat → Bool
  hasGroup : Nat → Bool
  hasEnforceOp : Nat → Bool
  enforceResult : Nat → Bool
  reserveRc : Nat → Option Errno
  swMsiStart : Nat → Nat
  msiRemapGlobal : Bool
  msiCookieRc : Nat → Option Errno
  attachGroupRc : Nat → Nat → Option Errno
  addDomainRc : Nat → Option Errno
  allocHwptRc : Option Errno
  allocDevRc : Option Errno
  xaStoreFail : Nat → Nat → Bool
  hwptAttachRc : Nat → Nat → Nat → Option Errno
  hwptReplaceRc : Nat → Nat → Nat → Option Errno

/-- Caller flags for attach; the single flag of the source is
IOMMUFD_ATTACH_FLAGS_ALLOW_UNSAFE_INTERRUPT. -/
structure Flags where
  allowUnsafeInterrupt : Bool
  deriving DecidableEq, Repr

namespace State

/-- Replace one HWPT record. -/
def setHwpt (st : State) (h : Nat) (hw : Hwpt) : State :=
  { st with hwpts := fupd st.hwpts h hw }

/-- Update one HWPT record through a function. -/
def updHwpt (st : State) (h : Nat) (f : Hwpt → Hwpt) : State :=
  st.setHwpt h (f (st.hwpts h))

/-- refcount_inc on hwpt obj.users. -/
def incUsers (st : State) (h : Nat) : State :=
  st.updHwpt h (fun hw => { hw with users := hw.users + 1 })

/-- refcount_dec on hwpt obj.users. -/
def decUsers (st : State) (h : Nat) : State :=
  st.updHwpt h (fun hw => { hw with users := hw.users - 1 })

/-- Mark whether the HWPT object is alive in the registry. -/
def setHwptExists (st : State) (h : Nat) (b : Bool) : State :=
  { st with hwptExists := fupd st.hwptExists h b }

/-- Set the binding current-HWPT pointer (idev hwpt field). -/
def setIdevHwpt (st : State) (d : Nat) (v : Option Nat) : State :=
  { st with idevHwpt := fupd st.idevHwpt d v }

/-- Set the binding use-reference count (idev obj.users). -/
def setIdevUsers (st : State) (d : Nat) (n : Nat) : State :=
  { st with idevUsers := fupd st.idevUsers d n }

/-- refcount_inc on the binding obj.users. -/
def incIdevUsers (st : State) (d : Nat) : State :=
  st.setIdevUsers d (st.idevUsers d + 1)

/-- refcount_dec on the binding obj.users. -/
def decIdevUsers (st : State) (d : Nat) : State :=
  st.setIdevUsers d (st.idevUsers d - 1)

/-- Record the device-group handle stored in the binding. -/
def setIdevGroup (st : State) (d : Nat) (v : Option Nat) : State :=
  { st with idevGroup := fupd st.idevGroup d v }

/-- Store or erase a (device, PASID) entry of the pasid_hwpts xarray. -/
def setPasid (st : State) (d p : Nat) (v : Option Nat) : State :=
  { st with pasidHwpts := fupd2 st.pasidHwpts d p v }

/-- Reserved IOVA bookkeeping for a device (iopt reserved itree entries). -/
def setReserved (st : State) (d : Nat) (b : Bool) : State :=
  { st with reserved := fupd st.reserved d b }

/-- Whether the HWPT domain is attached to an iommu group. -/
def setGroupAttached (st : State) (h g : Nat) (b : Bool) : State :=
  { st with groupAttached := fupd2 st.groupAttached h g b }

/-- Whether the HWPT domain is registered in the IOAS io-pagetable. -/
def setDomainReg (st : State) (h : Nat) (b : Bool) : State :=
  { st with domainRegistered := fupd st.domainRegistered h b }

/-- Append an HWPT to the IOAS member list (list_add_tail). -/
def appendIoas (st : State) (i h : Nat) : State :=
  { st with ioasList := fupd st.ioasList i (st.ioasList i ++ [h]) }

/-- Remove an HWPT from the IOAS member list (list_del of hwpt_item). -/
def removeIoas (st : State) (i h : Nat) : State :=
  { st with ioasList := fupd st.ioasList i ((st.ioasList i).erase h) }

/-- Set the DMA owner of a device (iommu core ownership state). -/
def setDmaOwner (st : State) (d : Nat) (v : Option Nat) : State :=
  { st with dmaOwner := fupd st.dmaOwner d v }

/-- iommu_group_get: take a reference on the device group. -/
def incGroupRef (st : State) (g : Nat) : State :=
  { st with groupRefs := fupd st.groupRefs g (st.groupRefs g + 1) }

/-- iommu_group_put: drop a reference on the device group. -/
def decGroupRef (st : State) (g : Nat) : State :=
  { st with groupRefs := fupd st.groupRefs g (st.groupRefs g - 1) }

/-- A kernel WARN_ON fired. -/
def warn (st : State) : State :=
  { st with warnCount := st.warnCount + 1 }

/-- Record an invocation of iommu_get_msi_cookie on this HWPT. -/
def bumpMsi (st : State) (h : Nat) : State :=
  { st with msiInstalls := fupd st.msiInstalls h (st.msiInstalls h + 1) }

end State

/-- Observable events of the PASID operations, used to state ordering
properties: publication and erasure of the xarray entry, the calls into the
hardware layer, and reference-count moves on the target HWPT. -/
inductive PasidEvent
  | publish (pasid hwpt : Nat)
  | unpublish (pasid : Nat)
  | setupDev (pasid hwpt : Nat)
  | swapDev (pasid newH oldH : Nat)
  | refInc (hwpt : Nat)
  | refDec (hwpt : Nat)
  deriving DecidableEq, Repr

/-- Translation of iommufd_device_pasid_do_attach (pasid.c lines 10-38).
Takes a reference on hwpt, then xa_cmpxchg the (device, pasid) slot from
empty to hwpt: an occupied slot yields success for the same HWPT and EBUSY
for a different one, dropping the reference either way; an empty slot is
filled (publication), then iommufd_hwpt_attach_device runs, and its failure
erases the entry and drops the reference.  The returned value is the C
return: ok none models the NULL pointer (ERR_PTR of 0 included). -/
def iommufd_device_pasid_do_attach (env : Env) (idev pasid hwpt : Nat)
    (st : State) : State × List PasidEvent × Except Errno (Option Nat) :=
  let st1 := st.incUsers hwpt
  match st.pasidHwpts idev pasid with
  | some curr =>
      if curr = hwpt then
        (st1.decUsers hwpt, [.refInc hwpt, .refDec hwpt], .ok none)
      else
        (st1.decUsers hwpt, [.refInc hwpt, .refDec hwpt], .error .EBUSY)
  | none =>
      if env.xaStoreFail idev pasid then
        (st1.decUsers hwpt, [.refInc hwpt, .refDec hwpt], .error .ENOMEM)
      else
        let st2 := st1.setPasid idev pasid (some hwpt)
        match env.hwptAttachRc hwpt idev pasid with
        | some rc =>
            ((st2.setPasid idev pasid none).decUsers hwpt,
             [.refInc hwpt, .publish pasid hwpt, .setupDev pasid hwpt,
              .unpublish pasid, .refDec hwpt],
             .error rc)
        | none =>
            (st2,
             [.refInc hwpt, .publish pasid hwpt, .setupDev pasid hwpt],
             .ok none)

/-- Translation of iommufd_device_pasid_do_replace (pasid.c lines 40-79).
Takes a reference on hwpt, xa_store the slot to hwpt: an empty slot (or an
xarray allocation failure on an empty slot) is an error with the stored
value erased and the reference dropped; the same HWPT is a no-op success;
otherwise iommufd_hwpt_replace_device runs, whose failure restores the old
value and drops the new reference, and whose success hands the old HWPT
back to the caller with its reference retained. -/
def iommufd_device_pasid_do_replace (env : Env) (idev pasid hwpt : Nat)
    (st : State) : State × List PasidEvent × Except Errno (Option Nat) :=
  let st1 := st.incUsers hwpt
  match st.pasidHwpts idev pasid with
  | none =>
      if env.xaStoreFail idev pasid then
        (st1.decUsers hwpt, [.refInc hwpt, .refDec hwpt], .error .ENOMEM)
      else
        let st2 := st1.setPasid idev pasid (some hwpt)
        ((st2.setPasid idev pasid none).decUsers hwpt,
         [.refInc hwpt, .publish pasid hwpt, .unpublish pasid, .refDec hwpt],
         .error .EINVAL)
  | some curr =>
      let st2 := st1.setPasid idev pasid (some hwpt)
      if curr = hwpt then
        (st2.decUsers hwpt, [.refInc hwpt, .publish pasid hwpt, .refDec hwpt],
         .ok none)
      else
        match env.hwptReplaceRc hwpt idev pasid with
        | some rc =>
            ((st2.setPasid idev pasid (some curr)).decUsers hwpt,
             [.refInc hwpt, .publish pasid hwpt, .swapDev pasid hwpt curr,
              .publish pasid curr, .refDec hwpt],
             .error rc)
        | none =>
            (st2,
             [.refInc hwpt, .publish pasid hwpt, .swapDev pasid hwpt curr],
             .ok (some curr))

/-- Translation of iommufd_device_setup_msi (device.c lines 136-188).  A
device whose platform isolates interrupts natively needs nothing.  If the
global MSI remap flow is in effect, a zero software MSI start is a WARN plus
EPERM; an already installed cookie is skipped; otherwise
iommu_get_msi_cookie is invoked (counted in msiInstalls) and the cookie flag
is set unless it fails with an error other than ENODEV.  Otherwise the
caller must have passed the allow-unsafe-interrupt flag or EPERM results. -/
def iommufd_device_setup_msi (env : Env) (idev hwptId : Nat)
    (sw_msi_start : Nat) (flags : Flags) (st : State) : State × Option Errno :=
  if env.devIntrRemap idev then
    (st, none)
  else if env.msiRemapGlobal then
    if sw_msi_start = 0 then
      (st.warn, some .EPERM)
    else if (st.hwpts hwptId).msi_cookie then
      (st, none)
    else
      let st1 := st.bumpMsi hwptId
      match env.msiCookieRc hwptId with
      | some rc =>
          if rc = .ENODEV then
            (st1.updHwpt hwptId (fun hw => { hw with msi_cookie := true }), none)
          else
            (st1, some rc)
      | none =>
          (st1.updHwpt hwptId (fun hw => { hw with msi_cookie := true }), none)
  else if flags.allowUnsafeInterrupt then
    (st, none)
  else
    (st, some .EPERM)

/-- Translation of iommufd_hw_pagetable_has_group (device.c lines 190-199):
whether some member device of the HWPT belongs to the given group. -/
def iommufd_hw_pagetable_has_group (env : Env) (st : State)
    (hwptId group : Nat) : Bool :=
  (st.hwpts hwptId).devices.any (fun d => env.devGroup d = group)

/-- Final success step of do_attach (device.c lines 253-255): record the
HWPT in the binding, take a use reference, prepend the device to the HWPT
member list. -/
def State.finishAttach (st : State) (idev hwptId : Nat) : State :=
  ((st.setIdevHwpt idev (some hwptId)).incUsers hwptId).updHwpt hwptId
    (fun hw => { hw with devices := idev :: hw.devices })

/-- Translation of iommufd_device_do_attach (device.c lines 201-266).
Step order is that of the source: coherency upgrade (a failed upgrade is
EINVAL, with a WARN when the HWPT member list is empty), reserved-region
enforcement, MSI setup, group attach when no member shares the group,
io-pagetable domain registration when the member list is empty, and the
success bookkeeping.  Error paths run the unwind labels of the source:
out_detach detaches the group, out_iova removes the reserved IOVA entries
for the device, out_unlock does neither.  The first step (device.c lines
216-226) is factored out as coherency_upgrade: when the device wants
enforced coherency and the HWPT does not yet enforce it, the domain op, if
present, decides the new flag value. -/
def coherency_upgrade (env : Env) (idev hwptId : Nat) (hw : Hwpt) : Hwpt :=
  if env.devEnforce idev && !hw.enforce_cache_coherency then
    if env.hasEnforceOp hwptId then
      { hw with enforce_cache_coherency := env.enforceResult hwptId }
    else hw
  else hw

def iommufd_device_do_attach (env : Env) (idev hwptId : Nat) (flags : Flags)
    (st : State) : State × Option Errno :=
  let upgraded := coherency_upgrade env idev hwptId (st.hwpts hwptId)
  let st1 := st.setHwpt hwptId upgraded
  if env.devEnforce idev && !upgraded.enforce_cache_coherency then
    (if upgraded.devices.isEmpty then st1.warn else st1, some .EINVAL)
  else
    match env.reserveRc idev with
    | some rc => (st1.setReserved idev false, some rc)
    | none =>
      let st2 := st1.setReserved idev true
      match iommufd_device_setup_msi env idev hwptId (env.swMsiStart idev)
          flags st2 with
      | (st3, some rc) => (st3.setReserved idev false, some rc)
      | (st3, none) =>
        let g := env.devGroup idev
        let doGroup := !iommufd_hw_pagetable_has_group env st3 hwptId g
        match (if doGroup then env.attachGroupRc hwptId g else none) with
        | some rc => (st3.setReserved idev false, some rc)
        | none =>
          let st4 := if doGroup then st3.setGroupAttached hwptId g true else st3
          if (st4.hwpts hwptId).devices.isEmpty then
            match env.addDomainRc hwptId with
            | some rc =>
                (((st4.setGroupAttached hwptId g false).setReserved idev false),
                 some rc)
            | none =>
                ((st4.setDomainReg hwptId true).finishAttach idev hwptId, none)
          else
            (st4.finishAttach idev hwptId, none)

/-- Modelled from the spec: iommufd_hw_pagetable_alloc lives outside the
given sources (the spec treats the registry and the HWPT allocator as
consumed collaborators).  A fresh object carries one creating reference, an
empty device list and no flags set, and belongs to the given IOAS. -/
def newHwptFor (ioas : Nat) : Hwpt :=
  { users := 1, devices := [], enforce_cache_coherency := false,
    msi_cookie := false, auto_domain := false, ioas := ioas }

/-- Modelled from the spec: iommufd_object_destroy_user of the object
registry (outside the given sources).  It drops the reference held by the
caller and destroys the object when only the registry base reference would
remain, which is when the count reaches zero; otherwise the object lives
on with the remaining references. -/
def iommufd_object_destroy_user (st : State) (hwptId : Nat) : State :=
  let u := (st.hwpts hwptId).users - 1
  if u = 1 then
    (st.updHwpt hwptId (fun hw => { hw with users := 0 })).setHwptExists
      hwptId false
  else
    st.updHwpt hwptId (fun hw => { hw with users := u })

/-- Modelled from the spec: iommufd_object_abort_and_destroy of the object
registry (outside the given sources) tears down a freshly allocated, never
finalized object completely. -/
def iommufd_object_abort_and_destroy (st : State) (hwptId : Nat) : State :=
  (st.updHwpt hwptId (fun hw => { hw with users := 0 })).setHwptExists
    hwptId false

/-- Outcome of the search loop of iommufd_device_auto_get_domain. -/
inductive SearchOutcome
  | found (hwptId : Nat) (st : State)
  | stopped (rc : Errno) (st : State)
  | exhausted (st : State)

/-- The member-list scan of iommufd_device_auto_get_domain (device.c lines
286-303): skip members that are not auto domains or whose refcount cannot
be raised from a live value, otherwise take a speculative reference, run
do_attach, drop the speculative reference, and either finish on success,
keep scanning on EINVAL, or stop on any other error. -/
def autoSearch (env : Env) (idev : Nat) (flags : Flags) :
    List Nat → State → SearchOutcome
  | [], st => .exhausted st
  | h :: rest, st =>
    if !(st.hwpts h).auto_domain || (st.hwpts h).users = 0 then
      autoSearch env idev flags rest st
    else
      let st1 := st.incUsers h
      match iommufd_device_do_attach env idev h flags st1 with
      | (st2, none) => .found h (st2.decUsers h)
      | (st2, some .EINVAL) => autoSearch env idev flags rest (st2.decUsers h)
      | (st2, some e) => .stopped e (st2.decUsers h)

/-- Translation of iommufd_device_auto_get_domain (device.c lines 273-326).
After the scan, a fresh HWPT (identified by the unused id freshId) is
allocated, marked auto_domain, and attached; on attach success it is
appended to the IOAS member list and finalized, on attach failure it is
aborted and destroyed. -/
def iommufd_device_auto_get_domain (env : Env) (idev ioas freshId : Nat)
    (flags : Flags) (st : State) : State × Option Errno :=
  match autoSearch env idev flags (st.ioasList ioas) st with
  | .found _ st' => (st', none)
  | .stopped rc st' => (st', some rc)
  | .exhausted st' =>
    match env.allocHwptRc with
    | some rc => (st', some rc)
    | none =>
      let st1 := (st'.setHwpt freshId (newHwptFor ioas)).setHwptExists
        freshId true
      let st2 := st1.updHwpt freshId (fun hw => { hw with auto_domain := true })
      match iommufd_device_do_attach env idev freshId flags st2 with
      | (st3, some rc) => (iommufd_object_abort_and_destroy st3 freshId, some rc)
      | (st3, none) => (st3.appendIoas ioas freshId, none)

/-- The kind of object the pt_id of iommufd_device_attach resolves to. -/
inductive PtTarget
  | hwptObj (id : Nat)
  | ioasObj (id : Nat)
  | otherObj
  deriving DecidableEq, Repr

/-- Translation of iommufd_device_attach (device.c lines 341-386).  A
concrete HWPT target runs do_attach and then unconditionally list_add_tail
the HWPT onto the member list of its IOAS; an IOAS target runs auto domain
selection; any other object kind is EINVAL.  Success takes a use reference
on the binding. -/
def iommufd_device_attach (env : Env) (idev : Nat) (tgt : PtTarget)
    (freshId : Nat) (flags : Flags) (st : State) : State × Option Errno :=
  match tgt with
  | .hwptObj h =>
      match iommufd_device_do_attach env idev h flags st with
      | (st1, some rc) => (st1, some rc)
      | (st1, none) =>
          ((st1.appendIoas (st1.hwpts h).ioas h).incIdevUsers idev, none)
  | .ioasObj i =>
      match iommufd_device_auto_get_domain env idev i freshId flags st with
      | (st1, some rc) => (st1, some rc)
      | (st1, none) => (st1.incIdevUsers idev, none)
  | .otherObj => (st, some .EINVAL)

/-- Translation of iommufd_device_detach (device.c lines 389-416).  Remove
the device from the HWPT member list; when no remaining member shares the
group, remove the domain from the io-pagetable and the HWPT from the IOAS
list if the member list became empty, then release the reserved IOVA
entries and detach the group; destroy an auto domain through the registry,
otherwise drop the attach-time use reference; finally clear the binding
current-HWPT pointer and drop the binding use reference. -/
def iommufd_device_detach (env : Env) (idev : Nat) (st : State) : State :=
  match st.idevHwpt idev with
  | none => st
  | some h =>
    let st1 := st.updHwpt h
      (fun hw => { hw with devices := hw.devices.erase idev })
    let g := env.devGroup idev
    let st2 :=
      if iommufd_hw_pagetable_has_group env st1 h g then st1
      else
        let st2a :=
          if (st1.hwpts h).devices.isEmpty then
            (st1.setDomainReg h false).removeIoas (st1.hwpts h).ioas h
          else st1
        (st2a.setReserved idev false).setGroupAttached h g false
    let st3 :=
      if (st2.hwpts h).auto_domain then iommufd_object_destroy_user st2 h
      else st2.decUsers h
    (st3.setIdevHwpt idev none).decIdevUsers idev

/-- Translation of iommufd_device_bind (device.c lines 58-110).  A device
without the cache coherency capability is EINVAL before anything else; a
device without a group is ENODEV; a held DMA ownership is EBUSY with the
group reference dropped again; an allocation failure releases ownership and
the group reference; success leaves the device owned by the context, the
binding holding two use references (the allocation one and the one for the
calling driver) and recording the group handle. -/
def iommufd_device_bind (env : Env) (ictx dev : Nat) (st : State) :
    State × Option Errno :=
  if !env.devCoherent dev then
    (st, some .EINVAL)
  else if !env.hasGroup dev then
    (st, some .ENODEV)
  else
    let g := env.devGroup dev
    let st1 := st.incGroupRef g
    match st1.dmaOwner dev with
    | some _ => (st1.decGroupRef g, some .EBUSY)
    | none =>
      let st2 := st1.setDmaOwner dev (some ictx)
      match env.allocDevRc with
      | some rc => ((st2.setDmaOwner dev none).decGroupRef g, some rc)
      | none =>
          (((st2.setIdevUsers dev 2).setIdevGroup dev (some g)), none)

/-- A sequence of do_attach calls by successive devices against one HWPT;
the Bool records whether every call succeeded.  Used to state the
properties of repeated attaches (spec P5). -/
def attachSeq (env : Env) (flags : Flags) (hwptId : Nat) :
    List Nat → State → State × Bool
  | [], st => (st, true)
  | d :: rest, st =>
    match iommufd_device_do_attach env d hwptId flags st with
    | (st', none) => attachSeq env flags hwptId rest st'
    | (st', some _) => (st', false)

/-- A benign oracle environment: every collaborator call succeeds, every
device is coherent, lives in a group of its own number, and its platform
isolates interrupts natively. -/
def env0 : Env :=
  { devGroup := fun d => d
    devCoherent := fun _ => true
    devEnforce := fun _ => false
    devIntrRemap := fun _ => true
    hasGroup := fun _ => true
    hasEnforceOp := fun _ => false
    enforceResult := fun _ => false
    reserveRc := fun _ => none
    swMsiStart := fun _ => 0
    msiRemapGlobal := false
    msiCookieRc := fun _ => none
    attachGroupRc := fun _ _ => none
    addDomainRc := fun _ => none
    allocHwptRc := none
    allocDevRc := none
    xaStoreFail := fun _ _ => false
    hwptAttachRc := fun _ _ _ => none
    hwptReplaceRc := fun _ _ _ => none }

/-- A plain HWPT record with one (creating) reference and no members. -/
def hwpt0 : Hwpt :=
  { users := 1, devices := [], enforce_cache_coherency := false,
    msi_cookie := false, auto_domain := false, ioas := 0 }

/-- An initial state: every HWPT slot holds the plain record, nothing is
attached, owned, reserved or listed. -/
def st0 : State :=
  { hwpts := fun _ => hwpt0
    hwptExists := fun _ => false
    idevHwpt := fun _ => none
    idevUsers := fun _ => 0
    idevGroup := fun _ => none
    pasidHwpts := fun _ _ => none
    reserved := fun _ => false
    groupAttached := fun _ _ => false
    domainRegistered := fun _ => false
    ioasList := fun _ => []
    dmaOwner := fun _ => none
    groupRefs := fun _ => 0
    warnCount := 0
    msiInstalls := fun _ => 0 }

/-- Flags with the unsafe-interrupt opt in not set. -/
def fl0 : Flags := { allowUnsafeInterrupt := false }

/-- Flags with the unsafe-interrupt opt in set. -/
def fl1 : Flags := { allowUnsafeInterrupt := true }

/-- An environment on a platform that needs a software MSI window, whose
group attach call fails: used to exhibit a failing attach that leaves the
installed MSI cookie behind. -/
def envC1 : Env :=
  { env0 with
    devIntrRemap := fun _ => false
    msiRemapGlobal := true
    swMsiStart := fun _ => 5
    attachGroupRc := fun _ _ => some .ENOMEM }

/-- An environment whose devices demand enforced cache coherency while no
HWPT domain offers the upgrade op. -/
def envC6 : Env :=
  { env0 with devEnforce := fun _ => true }

/-- An environment on a platform that requires a software MSI window and
whose collaborator calls all succeed. -/
def envC8 : Env :=
  { env0 with
    devIntrRemap := fun _ => false
    msiRemapGlobal := true
    swMsiStart := fun _ => 5 }

/-- An environment on a platform with neither native interrupt isolation
nor a software MSI window. -/
def envC8b : Env :=
  { env0 with devIntrRemap := fun _ => false }

/-- A state in which PASID 5 of device 0 is attached to HWPT 2. -/
def stP : State := st0.setPasid 0 5 (some 2)

/-- The state carried by a search outcome. -/
def SearchOutcome.state : SearchOutcome → State
  | .found _ st => st
  | .stopped _ st => st
  | .exhausted st => st

/-- The HWPT id of a found outcome, if any. -/
def SearchOutcome.foundId : SearchOutcome → Option Nat
  | .found h _ => some h
  | .stopped _ _ => none
  | .exhausted _ => none

/-- The error of a stopped outcome, if any. -/
def SearchOutcome.errOf : SearchOutcome → Option Errno
  | .stopped rc _ => some rc
  | .found _ _ => none
  | .exhausted _ => none

/-- An environment whose devices lack the cache coherency capability. -/
def envC9a : Env := { env0 with devCoherent := fun _ => false }

/-- An environment whose binding allocation fails. -/
def envC9b : Env := { env0 with allocDevRc := some .ENOMEM }

/-- A state in which device 0 is DMA-owned by context 3. -/
def stOwned : State := st0.setDmaOwner 0 (some 3)

/-- A state whose IOAS 0 contains one auto-created HWPT, number 3. -/
def stA : State :=
  (st0.updHwpt 3 (fun hw => { hw with auto_domain := true })).appendIoas 0 3

/-- An environment whose group attach calls fail, so that a fresh
auto-domain attach aborts. -/
def envC3 : Env := { env0 with attachGroupRc := fun _ _ => some .ENOMEM }

/-- A state in which device 0 is the single member of the auto-created
HWPT 1 of IOAS 0: HWPT 1 carries the creating reference plus the one
attach reference, and the binding holds its two use references. -/
def hwptD : Hwpt :=
  { users := 2, devices := [0], enforce_cache_coherency := false,
    msi_cookie := false, auto_domain := true, ioas := 0 }

/-- The state stD proper, built from hwptD. -/
def stD : State :=
  (((st0.setHwpt 1 hwptD).appendIoas 0 1).setIdevHwpt 0
    (some 1)).setIdevUsers 0 2

-- ===================== THEOREMS =====================

attribute [simp] fupd fupd2 State.setHwpt State.updHwpt State.incUsers
  State.decUsers State.setHwptExists State.setIdevHwpt State.setIdevUsers
  State.incIdevUsers State.decIdevUsers State.setIdevGroup State.setPasid
  State.setReserved State.setGroupAttached State.setDomainReg
  State.appendIoas State.removeIoas State.setDmaOwner State.incGroupRef
  State.decGroupRef State.warn State.bumpMsi State.finishAttach

/-- The coherency upgrade step never changes the users field. -/
@[simp] theorem coherency_upgrade_users (env : Env) (idev hwptId : Nat)
    (hw : Hwpt) : (coherency_upgrade env idev hwptId hw).users = hw.users := by
  unfold coherency_upgrade
  split
  · split <;> rfl
  · rfl

/-- The coherency upgrade step never changes the devices list. -/
@[simp] theorem coherency_upgrade_devices (env : Env) (idev hwptId : Nat)
    (hw : Hwpt) :
    (coherency_upgrade env idev hwptId hw).devices = hw.devices := by
  unfold coherency_upgrade
  split
  · split <;> rfl
  · rfl

/-- The coherency upgrade step never changes the msi_cookie flag. -/
@[simp] theorem coherency_upgrade_msi (env : Env) (idev hwptId : Nat)
    (hw : Hwpt) :
    (coherency_upgrade env idev hwptId hw).msi_cookie = hw.msi_cookie := by
  unfold coherency_upgrade
  split
  · split <;> rfl
  · rfl

/-- The coherency upgrade step never changes the auto_domain flag. -/
@[simp] theorem coherency_upgrade_auto (env : Env) (idev hwptId : Nat)
    (hw : Hwpt) :
    (coherency_upgrade env idev hwptId hw).auto_domain = hw.auto_domain := by
  unfold coherency_upgrade
  split
  · split <;> rfl
  · rfl

/-- The coherency upgrade step never changes the owning IOAS. -/
@[simp] theorem coherency_upgrade_ioas (env : Env) (idev hwptId : Nat)
    (hw : Hwpt) : (coherency_upgrade env idev hwptId hw).ioas = hw.ioas := by
  unfold coherency_upgrade
  split
  · split <;> rfl
  · rfl

/-- iommufd_device_setup_msi changes at most the msi_cookie flag of the
target HWPT, the WARN counter and the install counter: every other piece of
state, and every other field of every HWPT, is preserved. -/
theorem setup_msi_preserves (env : Env) (idev hwptId sw : Nat) (flags : Flags)
    (st : State) :
    ((iommufd_device_setup_msi env idev hwptId sw flags st).1.hwptExists
        = st.hwptExists ∧
      (iommufd_device_setup_msi env idev hwptId sw flags st).1.idevHwpt
        = st.idevHwpt ∧
      (iommufd_device_setup_msi env idev hwptId sw flags st).1.idevUsers
        = st.idevUsers ∧
      (iommufd_device_setup_msi env idev hwptId sw flags st).1.reserved
        = st.reserved ∧
      (iommufd_device_setup_msi env idev hwptId sw flags st).1.groupAttached
        = st.groupAttached ∧
      (iommufd_device_setup_msi env idev hwptId sw flags st).1.domainRegistered
        = st.domainRegistered ∧
      (iommufd_device_setup_msi env idev hwptId sw flags st).1.ioasList
        = st.ioasList) ∧
    ∀ h' : Nat,
      ((iommufd_device_setup_msi env idev hwptId sw flags st).1.hwpts h').users
          = (st.hwpts h').users ∧
      ((iommufd_device_setup_msi env idev hwptId sw flags st).1.hwpts h').devices
          = (st.hwpts h').devices ∧
      ((iommufd_device_setup_msi env idev hwptId sw flags st).1.hwpts
            h').auto_domain
          = (st.hwpts h').auto_domain ∧
      ((iommufd_device_setup_msi env idev hwptId sw flags st).1.hwpts
            h').enforce_cache_coherency
          = (st.hwpts h').enforce_cache_coherency ∧
      ((iommufd_device_setup_msi env idev hwptId sw flags st).1.hwpts h').ioas
          = (st.hwpts h').ioas ∧
      (h' ≠ hwptId →
        (iommufd_device_setup_msi env idev hwptId sw flags st).1.hwpts h'
          = st.hwpts h') := by
  unfold iommufd_device_setup_msi
  split
  · simp
  · split
    · split
      · simp [State.warn]
      · split
        · simp
        · split
          · split
            · simp
              intro h'
              rcases eq_or_ne h' hwptId with h | h <;> simp [h]
            · simp
          · simp
            intro h'
            rcases eq_or_ne h' hwptId with h | h <;> simp [h]
    · split
      · simp
      · simp

/-- On every failing run of iommufd_device_do_attach the device is not added
to the member list, the binding pointer and use counts are untouched, the
HWPT reference count is untouched, a previously absent IOVA reservation is
absent again, a previously absent group attach is absent again, and no
object existence, IOAS membership, auto flag or other HWPT changes. -/
theorem do_attach_fail_master (env : Env) (idev hwptId : Nat) (flags : Flags)
    (st post : State) (rc : Errno)
    (h : iommufd_device_do_attach env idev hwptId flags st = (post, some rc)) :
    (post.hwpts hwptId).devices = (st.hwpts hwptId).devices ∧
    (post.hwpts hwptId).users = (st.hwpts hwptId).users ∧
    post.idevHwpt = st.idevHwpt ∧
    post.idevUsers = st.idevUsers ∧
    (st.reserved idev = false → post.reserved idev = false) ∧
    (st.groupAttached hwptId (env.devGroup idev) = false →
      post.groupAttached hwptId (env.devGroup idev) = false) ∧
    post.hwptExists = st.hwptExists ∧
    post.ioasList = st.ioasList ∧
    (∀ h' : Nat, (post.hwpts h').auto_domain = (st.hwpts h').auto_domain) ∧
    (∀ h' : Nat, (post.hwpts h').ioas = (st.hwpts h').ioas) ∧
    (∀ h' : Nat, h' ≠ hwptId → post.hwpts h' = st.hwpts h') := by
  unfold iommufd_device_do_attach at h
  dsimp only at h
  split at h
  · -- coherency upgrade failed: EINVAL, possibly with a WARN
    split at h <;>
      (injection h with h1 h2; subst h1;
       refine ⟨?_, ?_, ?_, ?_, ?_, ?_, ?_, ?_, ?_, ?_, ?_⟩ <;>
         simp <;>
         first
           | (intro h' hne; simp [hne])
           | (intro h'; rcases eq_or_ne h' hwptId with rfl | hne <;> simp [*]))
  · split at h
    · -- reserved-region enforcement failed
      injection h with h1 h2
      subst h1
      refine ⟨?_, ?_, ?_, ?_, ?_, ?_, ?_, ?_, ?_, ?_, ?_⟩ <;>
        simp <;>
        first
          | (intro h' hne; simp [hne])
          | (intro h'; rcases eq_or_ne h' hwptId with rfl | hne <;> simp [*])
    · split at h
      · -- MSI setup failed
        next st3 rc' heq =>
        have hp := setup_msi_preserves env idev hwptId (env.swMsiStart idev)
          flags ((st.setHwpt hwptId
            (coherency_upgrade env idev hwptId (st.hwpts hwptId))).setReserved
              idev true)
        rw [heq] at hp
        dsimp only at hp
        injection h with h1 h2
        subst h1
        obtain ⟨⟨e1, e2, e3, e4, e5, e6, e7⟩, hfields⟩ := hp
        refine ⟨?_, ?_, ?_, ?_, ?_, ?_, ?_, ?_, ?_, ?_, ?_⟩
        · have := (hfields hwptId).2.1
          simp at this
          simp [this]
        · have := (hfields hwptId).1
          simp at this
          simp [this]
        · simp [e2]
        · simp [e3]
        · intro _
          simp [e4]
        · intro hg
          simp [e5, hg]
        · simp [e1]
        · simp [e7]
        · intro h'
          have := (hfields h').2.2.1
          rcases eq_or_ne h' hwptId with rfl | hne
          · simp at this
            simp [this]
          · simp [hne] at this
            simp [hne, this]
        · intro h'
          have := (hfields h').2.2.2.2
          rcases eq_or_ne h' hwptId with rfl | hne
          · simp at this
            simp [this]
          · simp [hne] at this
            simp [hne, this]
        · intro h' hne
          have hu := (hfields h').1
          have hd := (hfields h').2.1
          have ha := (hfields h').2.2.1
          have he := (hfields h').2.2.2.1
          have hi := (hfields h').2.2.2.2
          simp [hne] at hu hd ha he hi
          simp [hne]
          cases hst3 : st3.hwpts h'
          cases hst : st.hwpts h'
          simp_all
      · -- MSI setup succeeded; group attach and domain registration follow
        next st3 heq =>
        have hp := setup_msi_preserves env idev hwptId (env.swMsiStart idev)
          flags ((st.setHwpt hwptId
            (coherency_upgrade env idev hwptId (st.hwpts hwptId))).setReserved
              idev true)
        rw [heq] at hp
        dsimp only at hp
        obtain ⟨⟨e1, e2, e3, e4, e5, e6, e7⟩, hfields⟩ := hp
        repeat' split at h
        all_goals injection h with h1 h2
        all_goals first | exact Option.noConfusion h2 | subst h1
        all_goals refine ⟨?_, ?_, ?_, ?_, ?_, ?_, ?_, ?_, ?_, ?_, ?_⟩
        all_goals
          try simp [e1, e2, e3, e4, e5, e6, e7]
        all_goals
          try (intro h' hne
               have hf := (hfields h').2.2.2.2.2 hne
               simp [hne, hf])
        all_goals
          try (intro h'
               rcases eq_or_ne h' hwptId with rfl | hne
               · have hf := hfields h'
                 simp at hf
                 simp [hf]
               · have hf := (hfields h').2.2.2.2.2 hne
                 simp [hne, hf])
        all_goals
          (have hf := hfields hwptId
           simp at hf
           simp [hf])

/-- Installation accounting of iommufd_device_setup_msi: an already present
cookie suppresses any further installation; a successful run either
installed nothing or installed exactly once and left the cookie set; other
HWPT install counters are untouched. -/
theorem setup_msi_install (env : Env) (idev hwptId sw : Nat) (flags : Flags)
    (st : State) :
    ((st.hwpts hwptId).msi_cookie = true →
      ((iommufd_device_setup_msi env idev hwptId sw flags st).1.hwpts
          hwptId).msi_cookie = true ∧
      (iommufd_device_setup_msi env idev hwptId sw flags st).1.msiInstalls
        = st.msiInstalls) ∧
    ((iommufd_device_setup_msi env idev hwptId sw flags st).2 = none →
      (iommufd_device_setup_msi env idev hwptId sw flags st).1.msiInstalls
          hwptId = st.msiInstalls hwptId ∨
      ((iommufd_device_setup_msi env idev hwptId sw flags st).1.msiInstalls
          hwptId = st.msiInstalls hwptId + 1 ∧
        ((iommufd_device_setup_msi env idev hwptId sw flags st).1.hwpts
            hwptId).msi_cookie = true)) ∧
    (∀ h' : Nat, h' ≠ hwptId →
      (iommufd_device_setup_msi env idev hwptId sw flags st).1.msiInstalls h'
        = st.msiInstalls h') := by
  unfold iommufd_device_setup_msi
  split
  · simp
  · split
    · split
      · simp
      · split
        · next hck => simp [hck]
        · split
          · split
            · refine ⟨?_, ?_, ?_⟩
              · intro hc
                simp_all
              · intro _
                right
                simp
              · intro h' hne
                simp [hne]
            · refine ⟨?_, ?_, ?_⟩
              · intro hc
                simp_all
              · intro hnone
                simp at hnone
              · intro h' hne
                simp [hne]
          · refine ⟨?_, ?_, ?_⟩
            · intro hc
              simp_all
            · intro _
              right
              simp
            · intro h' hne
              simp [hne]
    · split
      · simp
      · simp

/-- On every successful run of iommufd_device_do_attach the binding points
at the HWPT, the HWPT gained exactly one use reference and the device at the
head of its member list, nothing else of the binding records or other HWPTs
changed, object existence and IOAS membership are untouched, and the MSI
cookie accounting installed at most once. -/
theorem do_attach_succ_master (env : Env) (idev hwptId : Nat) (flags : Flags)
    (st post : State)
    (h : iommufd_device_do_attach env idev hwptId flags st = (post, none)) :
    post.idevHwpt idev = some hwptId ∧
    (∀ d' : Nat, d' ≠ idev → post.idevHwpt d' = st.idevHwpt d') ∧
    (post.hwpts hwptId).users = (st.hwpts hwptId).users + 1 ∧
    (post.hwpts hwptId).devices = idev :: (st.hwpts hwptId).devices ∧
    (post.hwpts hwptId).auto_domain = (st.hwpts hwptId).auto_domain ∧
    (post.hwpts hwptId).ioas = (st.hwpts hwptId).ioas ∧
    post.hwptExists = st.hwptExists ∧
    post.ioasList = st.ioasList ∧
    post.idevUsers = st.idevUsers ∧
    (∀ h' : Nat, h' ≠ hwptId → post.hwpts h' = st.hwpts h') ∧
    ((st.hwpts hwptId).msi_cookie = true →
      (post.hwpts hwptId).msi_cookie = true ∧
      post.msiInstalls = st.msiInstalls) ∧
    (post.msiInstalls hwptId = st.msiInstalls hwptId ∨
      (post.msiInstalls hwptId = st.msiInstalls hwptId + 1 ∧
        (post.hwpts hwptId).msi_cookie = true)) ∧
    (∀ h' : Nat, h' ≠ hwptId → post.msiInstalls h' = st.msiInstalls h') := by
  unfold iommufd_device_do_attach at h
  dsimp only at h
  split at h
  · split at h <;> (injection h with h1 h2; exact Option.noConfusion h2)
  · split at h
    · injection h with h1 h2
      exact Option.noConfusion h2
    · split at h
      · injection h with h1 h2
        exact Option.noConfusion h2
      · next st3 heq =>
        have hp := setup_msi_preserves env idev hwptId (env.swMsiStart idev)
          flags ((st.setHwpt hwptId
            (coherency_upgrade env idev hwptId (st.hwpts hwptId))).setReserved
              idev true)
        have hm := setup_msi_install env idev hwptId (env.swMsiStart idev)
          flags ((st.setHwpt hwptId
            (coherency_upgrade env idev hwptId (st.hwpts hwptId))).setReserved
              idev true)
        rw [heq] at hp hm
        dsimp only at hp hm
        obtain ⟨⟨e1, e2, e3, e4, e5, e6, e7⟩, hfields⟩ := hp
        obtain ⟨m1, m2, m3⟩ := hm
        repeat' split at h
        all_goals injection h with h1 h2
        all_goals first | exact Option.noConfusion h2 | subst h1
        all_goals refine ⟨?_, ?_, ?_, ?_, ?_, ?_, ?_, ?_, ?_, ?_, ?_, ?_, ?_⟩
        all_goals
          try simp [e1, e2, e3, e4, e5, e6, e7]
        all_goals
          try (intro d' hne; simp [hne, e2])
        all_goals
          try (have hf := hfields hwptId
               simp at hf
               simp [hf])
        all_goals
          try (intro h' hne
               have hi := m3 h' hne
               simp [hne, hi])
        all_goals
          try (intro hck
               have hf := hfields hwptId
               simp at hf
               have hc2 : (st3.hwpts hwptId).msi_cookie = true := by
                 have := m1 (by simp [hck])
                 simpa using this.1
               have hi2 : st3.msiInstalls = st.msiInstalls := by
                 have := m1 (by simp [hck])
                 have h3 := this.2
                 simpa using h3
               simp [hc2, hi2])
        all_goals
          try (have hf := (hfields d').2.2.2.2.2 hne
               simp [hne, hf])
        all_goals
          (rcases m2 rfl with hm2 | ⟨hm2a, hm2b⟩
           · left
             simpa using hm2
           · right
             constructor
             · simpa using hm2a
             · simp [hm2b])

/-- Claim C1, counterexample: a failing invocation of the shared attach
algorithm does not always restore the pre-call state.  In this run the
group attach step fails after the software MSI window was installed, the
error is returned, and the msi_cookie flag of the HWPT remains set, so the
post-state differs from the pre-call state. -/
theorem do_attach_fail_not_pre_state :
    (iommufd_device_do_attach envC1 0 1 fl0 st0).2 = some .ENOMEM ∧
    ((iommufd_device_do_attach envC1 0 1 fl0 st0).1.hwpts 1).msi_cookie
      = true ∧
    (st0.hwpts 1).msi_cookie = false ∧
    (iommufd_device_do_attach envC1 0 1 fl0 st0).1 ≠ st0 := by
  refine ⟨by decide, by decide, by decide, ?_⟩
  intro hEq
  have h1 : ((iommufd_device_do_attach envC1 0 1 fl0 st0).1.hwpts
      1).msi_cookie = true := by decide
  rw [hEq] at h1
  exact absurd h1 (by decide)

/-- Claim C1 (amended): every failing invocation of the shared attach
algorithm undoes its reversible side effects — the device is not on the
HWPT member list, the binding current-HWPT pointer and use count are
unchanged, the HWPT reference count is unchanged, the reserved IOVA ranges
of the device are released, and a group attach performed by this call is
detached — although the post-state may keep the monotone capability flags
(coherency enforced, MSI cookie installed) that were raised before the
failing step. -/
theorem do_attach_fail_rollback (env : Env) (idev hwptId : Nat)
    (flags : Flags) (st : State) (rc : Errno)
    (hfail : (iommufd_device_do_attach env idev hwptId flags st).2 = some rc)
    (hres : st.reserved idev = false)
    (hgrp : st.groupAttached hwptId (env.devGroup idev) = false) :
    ((iommufd_device_do_attach env idev hwptId flags st).1.hwpts
        hwptId).devices = (st.hwpts hwptId).devices ∧
    (iommufd_device_do_attach env idev hwptId flags st).1.idevHwpt idev
      = st.idevHwpt idev ∧
    (iommufd_device_do_attach env idev hwptId flags st).1.idevUsers idev
      = st.idevUsers idev ∧
    ((iommufd_device_do_attach env idev hwptId flags st).1.hwpts
        hwptId).users = (st.hwpts hwptId).users ∧
    (iommufd_device_do_attach env idev hwptId flags st).1.reserved idev
      = false ∧
    (iommufd_device_do_attach env idev hwptId flags st).1.groupAttached
      hwptId (env.devGroup idev) = false := by
  have hpair : iommufd_device_do_attach env idev hwptId flags st
      = ((iommufd_device_do_attach env idev hwptId flags st).1, some rc) := by
    rw [← hfail]
  obtain ⟨d1, d2, d3, d4, d5, d6, _⟩ :=
    do_attach_fail_master env idev hwptId flags st
      (iommufd_device_do_attach env idev hwptId flags st).1 rc hpair
  exact ⟨d1, congrFun d3 idev, congrFun d4 idev, d2, d5 hres, d6 hgrp⟩

/-- Claim C1 witness: the amended rollback theorem evaluated at the
counterexample run. -/
theorem do_attach_fail_rollback_witness :
    ((iommufd_device_do_attach envC1 0 1 fl0 st0).1.hwpts 1).devices
      = (st0.hwpts 1).devices ∧
    (iommufd_device_do_attach envC1 0 1 fl0 st0).1.idevHwpt 0
      = st0.idevHwpt 0 ∧
    (iommufd_device_do_attach envC1 0 1 fl0 st0).1.idevUsers 0
      = st0.idevUsers 0 ∧
    ((iommufd_device_do_attach envC1 0 1 fl0 st0).1.hwpts 1).users
      = (st0.hwpts 1).users ∧
    (iommufd_device_do_attach envC1 0 1 fl0 st0).1.reserved 0 = false ∧
    (iommufd_device_do_attach envC1 0 1 fl0 st0).1.groupAttached 1
      (envC1.devGroup 0) = false :=
  do_attach_fail_rollback envC1 0 1 fl0 st0 .ENOMEM (by decide) (by decide)
    (by decide)

/-- Claim C6 (confirmed): when the device requires enforced cache coherency,
the HWPT does not yet enforce it and the upgrade of the underlying domain
fails, do_attach fails with EINVAL; the failure is accompanied by a kernel
WARN exactly when the HWPT has no member devices (the source renders
InternalInconsistency as EINVAL plus WARN_ON and Incompatible, the error
auto-selection retries, as plain EINVAL), and the binding stays
unattached. -/
theorem do_attach_coherency_upgrade_fail (env : Env) (idev hwptId : Nat)
    (flags : Flags) (st : State)
    (hwant : env.devEnforce idev = true)
    (hnot : (st.hwpts hwptId).enforce_cache_coherency = false)
    (hupg : env.hasEnforceOp hwptId = false ∨
      env.enforceResult hwptId = false) :
    (iommufd_device_do_attach env idev hwptId flags st).2 = some .EINVAL ∧
    ((st.hwpts hwptId).devices = [] →
      (iommufd_device_do_attach env idev hwptId flags st).1.warnCount
        = st.warnCount + 1) ∧
    ((st.hwpts hwptId).devices ≠ [] →
      (iommufd_device_do_attach env idev hwptId flags st).1.warnCount
        = st.warnCount) ∧
    (iommufd_device_do_attach env idev hwptId flags st).1.idevHwpt idev
      = st.idevHwpt idev := by
  have hcu : (coherency_upgrade env idev hwptId
      (st.hwpts hwptId)).enforce_cache_coherency = false := by
    unfold coherency_upgrade
    rcases hupg with hc | hc
    · simp [hwant, hnot, hc]
    · simp [hwant, hnot, hc]
      split <;> simp [hnot]
  unfold iommufd_device_do_attach
  dsimp only
  refine ⟨?_, ?_, ?_, ?_⟩
  · simp [hcu, hwant]
  · intro hdev
    simp [hcu, hwant, hdev]
  · intro hdev
    simp [hcu, hwant, List.isEmpty_iff, hdev]
  · simp [hcu, hwant]
    split <;> simp

/-- Claim C6 witness: the coherency-upgrade failure theorem at a concrete
run with an empty HWPT. -/
theorem do_attach_coherency_upgrade_fail_witness :
    (iommufd_device_do_attach envC6 0 1 fl0 st0).2 = some .EINVAL ∧
    ((st0.hwpts 1).devices = [] →
      (iommufd_device_do_attach envC6 0 1 fl0 st0).1.warnCount
        = st0.warnCount + 1) ∧
    ((st0.hwpts 1).devices ≠ [] →
      (iommufd_device_do_attach envC6 0 1 fl0 st0).1.warnCount
        = st0.warnCount) ∧
    (iommufd_device_do_attach envC6 0 1 fl0 st0).1.idevHwpt 0
      = st0.idevHwpt 0 :=
  do_attach_coherency_upgrade_fail envC6 0 1 fl0 st0 (by decide) (by decide)
    (Or.inl (by decide))

/-- Across a sequence of successful attaches to one HWPT the install counter
never decreases and grows by at most one, with no growth at all when the
cookie was already installed. -/
theorem attachSeq_msi_bound (env : Env) (flags : Flags) (hwptId : Nat)
    (devs : List Nat) : ∀ st : State,
    (attachSeq env flags hwptId devs st).2 = true →
    st.msiInstalls hwptId
        ≤ (attachSeq env flags hwptId devs st).1.msiInstalls hwptId ∧
    (attachSeq env flags hwptId devs st).1.msiInstalls hwptId
      ≤ st.msiInstalls hwptId
        + (if (st.hwpts hwptId).msi_cookie then 0 else 1) := by
  induction devs with
  | nil =>
    intro st _
    simp only [attachSeq]
    constructor
    · exact Nat.le_refl _
    · split <;> simp
  | cons d rest ih =>
    intro st hok
    rcases hrun : iommufd_device_do_attach env d hwptId flags st with ⟨st', orc⟩
    cases orc with
    | some e =>
      simp only [attachSeq, hrun] at hok
      exact absurd hok (by simp)
    | none =>
      simp only [attachSeq, hrun] at hok ⊢
      have hm := do_attach_succ_master env d hwptId flags st st' hrun
      obtain ⟨_, _, _, _, _, _, _, _, _, _, m11, m12, _⟩ := hm
      obtain ⟨ih1, ih2⟩ := ih st' hok
      constructor
      · rcases m12 with h12 | ⟨h12, _⟩ <;> omega
      · by_cases hck : (st.hwpts hwptId).msi_cookie = true
        · obtain ⟨hc', hi'⟩ := m11 hck
          have hi2 := congrFun hi' hwptId
          simp [hck]
          simp [hc'] at ih2
          omega
        · simp [hck]
          rcases m12 with h12 | ⟨h12, hc'⟩
          · have hb : (if (st'.hwpts hwptId).msi_cookie then 0 else 1) ≤ 1 := by
              split <;> simp
            omega
          · simp [hc'] at ih2
            omega

/-- Claim C8 (confirmed): over any sequence of successful attaches to one
HWPT the software MSI window is installed at most once, and not at all when
it was already installed (subsequent devices observe the cookie flag and
skip); on a platform with neither native interrupt isolation (the device
INTR_REMAP capability) nor the software MSI window flow, attach fails with
EPERM, the UnsafeInterrupts error, unless the unsafe-interrupt flag was
passed, in which case the MSI step succeeds without touching the state. -/
theorem msi_window_claim :
    (∀ (env : Env) (flags : Flags) (hwptId : Nat) (devs : List Nat)
        (st : State),
      (attachSeq env flags hwptId devs st).2 = true →
      (attachSeq env flags hwptId devs st).1.msiInstalls hwptId
          ≤ st.msiInstalls hwptId + 1 ∧
      ((st.hwpts hwptId).msi_cookie = true →
        (attachSeq env flags hwptId devs st).1.msiInstalls hwptId
          = st.msiInstalls hwptId)) ∧
    (∀ (env : Env) (idev hwptId : Nat) (flags : Flags) (st : State),
      env.devIntrRemap idev = false →
      env.msiRemapGlobal = false →
      flags.allowUnsafeInterrupt = false →
      env.devEnforce idev = false →
      env.reserveRc idev = none →
      (iommufd_device_do_attach env idev hwptId flags st).2 = some .EPERM) ∧
    (∀ (env : Env) (idev hwptId sw : Nat) (flags : Flags) (st : State),
      env.devIntrRemap idev = false →
      env.msiRemapGlobal = false →
      flags.allowUnsafeInterrupt = true →
      iommufd_device_setup_msi env idev hwptId sw flags st = (st, none)) := by
  refine ⟨?_, ?_, ?_⟩
  · intro env flags hwptId devs st hok
    obtain ⟨h1, h2⟩ := attachSeq_msi_bound env flags hwptId devs st hok
    constructor
    · have hb : (if (st.hwpts hwptId).msi_cookie then 0 else 1) ≤ 1 := by
        split <;> simp
      omega
    · intro hck
      simp [hck] at h2
      omega
  · intro env idev hwptId flags st hint hglob hflag henf hres
    unfold iommufd_device_do_attach
    dsimp only
    rw [if_neg (by simp [henf])]
    rw [hres]
    unfold iommufd_device_setup_msi
    rw [if_neg (by simp [hint]), if_neg (by simp [hglob]),
      if_neg (by simp [hflag])]
  · intro env idev hwptId sw flags st hint hglob hflag
    unfold iommufd_device_setup_msi
    rw [if_neg (by simp [hint]), if_neg (by simp [hglob]),
      if_pos (by simp [hflag])]

/-- Claim C8 witness: three successful attaches to one HWPT install the
window exactly once; a no-isolation platform yields EPERM without the flag
and a clean pass with it. -/
theorem msi_window_claim_witness :
    ((attachSeq envC8 fl0 1 [0, 1, 2] st0).2 = true ∧
      (attachSeq envC8 fl0 1 [0, 1, 2] st0).1.msiInstalls 1
        ≤ st0.msiInstalls 1 + 1) ∧
    (iommufd_device_do_attach envC8b 0 1 fl0 st0).2 = some .EPERM ∧
    iommufd_device_setup_msi envC8b 0 1 5 fl1 st0 = (st0, none) :=
  ⟨⟨by decide,
    (msi_window_claim.1 envC8 fl0 1 [0, 1, 2] st0 (by decide)).1⟩,
   msi_window_claim.2.1 envC8b 0 1 fl0 st0 (by decide) (by decide) (by decide)
     (by decide) (by decide),
   msi_window_claim.2.2 envC8b 0 1 5 fl1 st0 (by decide) (by decide)
     (by decide)⟩

/-- Claim C2 (confirmed): for a (device, PASID) key mapped to HWPT A, a
successful pasid_replace to a different HWPT B leaves the key mapped to
exactly B with the reference count of B incremented by exactly one, the
reference of A untouched and handed back to the caller in the return value;
a replace whose hardware swap fails leaves the key mapped to exactly A with
the reference counts of both A and B unchanged and the error returned. -/
theorem pasid_replace_atomicity (env : Env) (idev pasid hA hB : Nat)
    (st : State)
    (hcur : st.pasidHwpts idev pasid = some hA)
    (hne : hA ≠ hB) :
    (env.hwptReplaceRc hB idev pasid = none →
      (iommufd_device_pasid_do_replace env idev pasid hB st).1.pasidHwpts
          idev pasid = some hB ∧
      ((iommufd_device_pasid_do_replace env idev pasid hB st).1.hwpts
          hB).users = (st.hwpts hB).users + 1 ∧
      ((iommufd_device_pasid_do_replace env idev pasid hB st).1.hwpts
          hA).users = (st.hwpts hA).users ∧
      (iommufd_device_pasid_do_replace env idev pasid hB st).2.2
        = .ok (some hA)) ∧
    (∀ rc : Errno, env.hwptReplaceRc hB idev pasid = some rc →
      (iommufd_device_pasid_do_replace env idev pasid hB st).1.pasidHwpts
          idev pasid = some hA ∧
      ((iommufd_device_pasid_do_replace env idev pasid hB st).1.hwpts
          hB).users = (st.hwpts hB).users ∧
      ((iommufd_device_pasid_do_replace env idev pasid hB st).1.hwpts
          hA).users = (st.hwpts hA).users ∧
      (iommufd_device_pasid_do_replace env idev pasid hB st).2.2
        = .error rc) := by
  unfold iommufd_device_pasid_do_replace
  rw [hcur]
  dsimp only
  rw [if_neg hne]
  constructor
  · intro hrc
    rw [hrc]
    refine ⟨by simp, by simp, by simp [hne, Ne.symm hne], rfl⟩
  · intro rc hrc
    rw [hrc]
    refine ⟨by simp, by simp [hne, Ne.symm hne], by simp [hne, Ne.symm hne],
      rfl⟩

/-- Claim C2 witness: the replace atomicity theorem at a concrete state
where PASID 5 of device 0 is mapped to HWPT 2 and replaced by HWPT 7. -/
theorem pasid_replace_atomicity_witness :
    (iommufd_device_pasid_do_replace env0 0 5 7 stP).1.pasidHwpts 0 5
      = some 7 ∧
    ((iommufd_device_pasid_do_replace env0 0 5 7 stP).1.hwpts 7).users
      = (stP.hwpts 7).users + 1 ∧
    ((iommufd_device_pasid_do_replace env0 0 5 7 stP).1.hwpts 2).users
      = (stP.hwpts 2).users ∧
    (iommufd_device_pasid_do_replace env0 0 5 7 stP).2.2 = .ok (some 2) :=
  (pasid_replace_atomicity env0 0 5 2 7 stP (by decide) (by decide)).1 rfl

/-- Claim C10 (confirmed): a pasid_replace on a (device, PASID) key with no
published mapping fails — with ENOMEM when the xarray store itself fails,
otherwise with EINVAL after the speculatively stored value is erased — and
leaves the key unmapped with every HWPT reference count unchanged; it never
creates a first-time attachment. -/
theorem pasid_replace_unmapped (env : Env) (idev pasid hwpt : Nat)
    (st : State)
    (hnone : st.pasidHwpts idev pasid = none) :
    (env.xaStoreFail idev pasid = true →
      (iommufd_device_pasid_do_replace env idev pasid hwpt st).2.2
        = .error .ENOMEM) ∧
    (env.xaStoreFail idev pasid = false →
      (iommufd_device_pasid_do_replace env idev pasid hwpt st).2.2
        = .error .EINVAL) ∧
    (iommufd_device_pasid_do_replace env idev pasid hwpt st).1.pasidHwpts
      idev pasid = none ∧
    ∀ h' : Nat,
      ((iommufd_device_pasid_do_replace env idev pasid hwpt st).1.hwpts
        h').users = (st.hwpts h').users := by
  unfold iommufd_device_pasid_do_replace
  rw [hnone]
  dsimp only
  by_cases hxa : env.xaStoreFail idev pasid = true
  · rw [if_pos hxa]
    refine ⟨fun _ => rfl, fun hf => absurd hxa (by simp [hf]), by simp [hnone],
      ?_⟩
    intro h'
    rcases eq_or_ne h' hwpt with rfl | hne
    · simp
    · simp [hne]
  · rw [if_neg hxa]
    refine ⟨fun ht => absurd ht hxa, fun _ => rfl, by simp [hnone], ?_⟩
    intro h'
    rcases eq_or_ne h' hwpt with rfl | hne
    · simp
    · simp [hne]

/-- Claim C10 witness: the unmapped-replace theorem at a concrete state
with no mapping for PASID 9 of device 0. -/
theorem pasid_replace_unmapped_witness :
    (env0.xaStoreFail 0 9 = true →
      (iommufd_device_pasid_do_replace env0 0 9 7 st0).2.2
        = .error .ENOMEM) ∧
    (env0.xaStoreFail 0 9 = false →
      (iommufd_device_pasid_do_replace env0 0 9 7 st0).2.2
        = .error .EINVAL) ∧
    (iommufd_device_pasid_do_replace env0 0 9 7 st0).1.pasidHwpts 0 9
      = none ∧
    ∀ h' : Nat,
      ((iommufd_device_pasid_do_replace env0 0 9 7 st0).1.hwpts h').users
        = (st0.hwpts h').users :=
  pasid_replace_unmapped env0 0 9 7 st0 (by decide)

/-- Claim C4, counterexample: pasid_attach does not perform the hardware
PASID setup before publishing the mapping.  In this successful first-time
attach the publish event appears in the trace strictly before the setup
event, so the mapping is published speculatively and the setup runs on an
already published entry. -/
theorem pasid_attach_publish_precedes_setup :
    (iommufd_device_pasid_do_attach env0 0 5 7 st0).2.2 = .ok none ∧
    (iommufd_device_pasid_do_attach env0 0 5 7 st0).2.1
      = [.refInc 7, .publish 5 7, .setupDev 5 7] ∧
    List.indexOf (PasidEvent.publish 5 7)
        (iommufd_device_pasid_do_attach env0 0 5 7 st0).2.1
      < List.indexOf (PasidEvent.setupDev 5 7)
        (iommufd_device_pasid_do_attach env0 0 5 7 st0).2.1 := by
  refine ⟨by decide, by decide, by decide⟩

/-- Claim C4 (amended): pasid_attach fails with EBUSY, the AlreadyBound
error, when the key already maps to a different HWPT; succeeds as a pure
no-op when the key already maps to the same HWPT; and otherwise takes a
reference on the target, publishes the mapping speculatively, and only then
performs the hardware PASID setup — on setup failure the entry is erased
and the reference dropped, so no mapping for the key remains published. -/
theorem pasid_attach_spec (env : Env) (idev pasid hwpt : Nat) (st : State) :
    (∀ curr : Nat, st.pasidHwpts idev pasid = some curr → curr ≠ hwpt →
      (iommufd_device_pasid_do_attach env idev pasid hwpt st).2.2
        = .error .EBUSY ∧
      (iommufd_device_pasid_do_attach env idev pasid hwpt st).1.pasidHwpts
        idev pasid = some curr ∧
      ∀ h' : Nat,
        ((iommufd_device_pasid_do_attach env idev pasid hwpt st).1.hwpts
          h').users = (st.hwpts h').users) ∧
    (st.pasidHwpts idev pasid = some hwpt →
      (iommufd_device_pasid_do_attach env idev pasid hwpt st).2.2
        = .ok none ∧
      (iommufd_device_pasid_do_attach env idev pasid hwpt st).1.pasidHwpts
        idev pasid = some hwpt ∧
      ∀ h' : Nat,
        ((iommufd_device_pasid_do_attach env idev pasid hwpt st).1.hwpts
          h').users = (st.hwpts h').users) ∧
    (st.pasidHwpts idev pasid = none →
      env.xaStoreFail idev pasid = false →
      (env.hwptAttachRc hwpt idev pasid = none →
        (iommufd_device_pasid_do_attach env idev pasid hwpt st).2.2
          = .ok none ∧
        (iommufd_device_pasid_do_attach env idev pasid hwpt st).1.pasidHwpts
          idev pasid = some hwpt ∧
        ((iommufd_device_pasid_do_attach env idev pasid hwpt st).1.hwpts
          hwpt).users = (st.hwpts hwpt).users + 1 ∧
        (iommufd_device_pasid_do_attach env idev pasid hwpt st).2.1
          = [.refInc hwpt, .publish pasid hwpt, .setupDev pasid hwpt]) ∧
      (∀ rc : Errno, env.hwptAttachRc hwpt idev pasid = some rc →
        (iommufd_device_pasid_do_attach env idev pasid hwpt st).2.2
          = .error rc ∧
        (iommufd_device_pasid_do_attach env idev pasid hwpt st).1.pasidHwpts
          idev pasid = none ∧
        ∀ h' : Nat,
          ((iommufd_device_pasid_do_attach env idev pasid hwpt st).1.hwpts
            h').users = (st.hwpts h').users)) := by
  refine ⟨?_, ?_, ?_⟩
  · intro curr hcur hne
    unfold iommufd_device_pasid_do_attach
    rw [hcur]
    dsimp only
    rw [if_neg hne]
    refine ⟨rfl, by simp [hcur], ?_⟩
    intro h'
    rcases eq_or_ne h' hwpt with rfl | hne2
    · simp
    · simp [hne2]
  · intro hcur
    unfold iommufd_device_pasid_do_attach
    rw [hcur]
    dsimp only
    rw [if_pos rfl]
    refine ⟨rfl, by simp [hcur], ?_⟩
    intro h'
    rcases eq_or_ne h' hwpt with rfl | hne2
    · simp
    · simp [hne2]
  · intro hcur hxa
    unfold iommufd_device_pasid_do_attach
    rw [hcur]
    dsimp only
    rw [if_neg (by simp [hxa])]
    constructor
    · intro hrc
      rw [hrc]
      exact ⟨rfl, by simp, by simp, rfl⟩
    · intro rc hrc
      rw [hrc]
      refine ⟨rfl, by simp [hcur], ?_⟩
      intro h'
      rcases eq_or_ne h' hwpt with rfl | hne2
      · simp
      · simp [hne2]

/-- Claim C4 witness: the attach specification at a first-time attach of
PASID 5 of device 0 to HWPT 7, and at the state where the key already maps
to HWPT 2, rejected with EBUSY for the different target 7. -/
theorem pasid_attach_spec_witness :
    ((iommufd_device_pasid_do_attach env0 0 5 7 st0).2.2 = .ok none ∧
      (iommufd_device_pasid_do_attach env0 0 5 7 st0).1.pasidHwpts 0 5
        = some 7 ∧
      ((iommufd_device_pasid_do_attach env0 0 5 7 st0).1.hwpts 7).users
        = (st0.hwpts 7).users + 1 ∧
      (iommufd_device_pasid_do_attach env0 0 5 7 st0).2.1
        = [.refInc 7, .publish 5 7, .setupDev 5 7]) ∧
    (iommufd_device_pasid_do_attach env0 0 5 7 stP).2.2
      = .error .EBUSY :=
  ⟨((pasid_attach_spec env0 0 5 7 st0).2.2 (by decide) (by decide)).1 rfl,
   ((pasid_attach_spec env0 0 5 7 stP).1 2 (by decide) (by decide)).1⟩

/-- Claim C9 (confirmed): bind fails with EINVAL, the CapabilityUnsupported
error, when the device lacks the cache coherency capability, before any
ownership claim (the state is fully unchanged); fails with EBUSY, the
AlreadyOwned error, when an owner already holds the device, with the group
reference dropped again and ownership untouched; fails with the allocation
error on resource exhaustion, releasing the ownership just claimed and the
group reference; and on success leaves the device owned by the context with
the binding holding the group handle and its two use references. -/
theorem device_bind_spec (env : Env) (ictx dev : Nat) (st : State) :
    (env.devCoherent dev = false →
      iommufd_device_bind env ictx dev st = (st, some .EINVAL)) ∧
    (env.devCoherent dev = true → env.hasGroup dev = true →
      (∀ o : Nat, st.dmaOwner dev = some o →
        (iommufd_device_bind env ictx dev st).2 = some .EBUSY ∧
        (iommufd_device_bind env ictx dev st).1.dmaOwner dev = some o ∧
        (iommufd_device_bind env ictx dev st).1.groupRefs (env.devGroup dev)
          = st.groupRefs (env.devGroup dev)) ∧
      (st.dmaOwner dev = none →
        (∀ rc : Errno, env.allocDevRc = some rc →
          (iommufd_device_bind env ictx dev st).2 = some rc ∧
          (iommufd_device_bind env ictx dev st).1.dmaOwner dev = none ∧
          (iommufd_device_bind env ictx dev st).1.groupRefs
            (env.devGroup dev) = st.groupRefs (env.devGroup dev)) ∧
        (env.allocDevRc = none →
          (iommufd_device_bind env ictx dev st).2 = none ∧
          (iommufd_device_bind env ictx dev st).1.dmaOwner dev
            = some ictx ∧
          (iommufd_device_bind env ictx dev st).1.idevGroup dev
            = some (env.devGroup dev) ∧
          (iommufd_device_bind env ictx dev st).1.idevUsers dev = 2))) := by
  constructor
  · intro hco
    unfold iommufd_device_bind
    rw [if_pos (by simp [hco])]
  · intro hco hgr
    constructor
    · intro o howner
      unfold iommufd_device_bind
      rw [if_neg (by simp [hco]), if_neg (by simp [hgr])]
      dsimp only
      rw [show (st.incGroupRef (env.devGroup dev)).dmaOwner dev
          = some o from howner]
      exact ⟨rfl, by simp [howner], by simp⟩
    · intro howner
      constructor
      · intro rc hrc
        unfold iommufd_device_bind
        rw [if_neg (by simp [hco]), if_neg (by simp [hgr])]
        dsimp only
        rw [show (st.incGroupRef (env.devGroup dev)).dmaOwner dev
            = none from howner]
        rw [hrc]
        exact ⟨rfl, by simp, by simp⟩
      · intro hrc
        unfold iommufd_device_bind
        rw [if_neg (by simp [hco]), if_neg (by simp [hgr])]
        dsimp only
        rw [show (st.incGroupRef (env.devGroup dev)).dmaOwner dev
            = none from howner]
        rw [hrc]
        exact ⟨rfl, by simp, by simp, by simp⟩

/-- Claim C9 witness: the bind specification at a device without the
capability, at an owned device, at an allocation failure, and at a clean
success. -/
theorem device_bind_spec_witness :
    iommufd_device_bind envC9a 7 0 st0 = (st0, some .EINVAL) ∧
    ((iommufd_device_bind env0 7 0 stOwned).2 = some .EBUSY ∧
      (iommufd_device_bind env0 7 0 stOwned).1.dmaOwner 0 = some 3 ∧
      (iommufd_device_bind env0 7 0 stOwned).1.groupRefs (env0.devGroup 0)
        = stOwned.groupRefs (env0.devGroup 0)) ∧
    ((iommufd_device_bind envC9b 7 0 st0).2 = some .ENOMEM ∧
      (iommufd_device_bind envC9b 7 0 st0).1.dmaOwner 0 = none ∧
      (iommufd_device_bind envC9b 7 0 st0).1.groupRefs (envC9b.devGroup 0)
        = st0.groupRefs (envC9b.devGroup 0)) ∧
    ((iommufd_device_bind env0 7 0 st0).2 = none ∧
      (iommufd_device_bind env0 7 0 st0).1.dmaOwner 0 = some 7 ∧
      (iommufd_device_bind env0 7 0 st0).1.idevGroup 0
        = some (env0.devGroup 0) ∧
      (iommufd_device_bind env0 7 0 st0).1.idevUsers 0 = 2) :=
  ⟨(device_bind_spec envC9a 7 0 st0).1 (by decide),
   ((device_bind_spec env0 7 0 stOwned).2 (by decide) (by decide)).1 3
     (by decide),
   (((device_bind_spec envC9b 7 0 st0).2 (by decide) (by decide)).2
     (by decide)).1 .ENOMEM (by decide),
   (((device_bind_spec env0 7 0 st0).2 (by decide) (by decide)).2
     (by decide)).2 (by decide)⟩

/-- Claim C7, failing run: iommufd_device_attach with a concrete HWPT
target calls list_add_tail on the IOAS member list unconditionally, with no
already-present check.  After two successful attaches of two devices to the
same manually created HWPT 1, the member list of IOAS 0 holds HWPT 1 twice
(in the kernel an intrusive list_add_tail of an already linked entry, list
corruption), violating the at-most-once membership invariant the detach
path relies on. -/
theorem attach_duplicates_ioas_list :
    (iommufd_device_attach env0 0 (.hwptObj 1) 99 fl0 st0).2 = none ∧
    (iommufd_device_attach env0 0 (.hwptObj 1) 99 fl0 st0).1.ioasList 0
      = [1] ∧
    (iommufd_device_attach env0 1 (.hwptObj 1) 99 fl0
        (iommufd_device_attach env0 0 (.hwptObj 1) 99 fl0 st0).1).2
      = none ∧
    (iommufd_device_attach env0 1 (.hwptObj 1) 99 fl0
        (iommufd_device_attach env0 0 (.hwptObj 1) 99 fl0 st0).1).1.ioasList
        0 = [1, 1] := by
  refine ⟨by decide, by decide, by decide, by decide⟩

/-- The registry destroy touches only the users count and the existence
flag: the member list of the HWPT is untouched. -/
@[simp] theorem destroy_user_devices (st : State) (h : Nat) :
    ((iommufd_object_destroy_user st h).hwpts h).devices
      = (st.hwpts h).devices := by
  unfold iommufd_object_destroy_user
  dsimp only
  split <;> simp

/-- The registry destroy leaves every binding pointer unchanged. -/
@[simp] theorem destroy_user_idevHwpt (st : State) (h : Nat) :
    (iommufd_object_destroy_user st h).idevHwpt = st.idevHwpt := by
  unfold iommufd_object_destroy_user
  dsimp only
  split <;> simp

/-- The registry destroy leaves every binding use count unchanged. -/
@[simp] theorem destroy_user_idevUsers (st : State) (h : Nat) :
    (iommufd_object_destroy_user st h).idevUsers = st.idevUsers := by
  unfold iommufd_object_destroy_user
  dsimp only
  split <;> simp

/-- The registry destroy leaves the IOAS member lists unchanged. -/
@[simp] theorem destroy_user_ioasList (st : State) (h : Nat) :
    (iommufd_object_destroy_user st h).ioasList = st.ioasList := by
  unfold iommufd_object_destroy_user
  dsimp only
  split <;> simp

/-- The registry destroy leaves the domain registration unchanged. -/
@[simp] theorem destroy_user_domainReg (st : State) (h : Nat) :
    (iommufd_object_destroy_user st h).domainRegistered
      = st.domainRegistered := by
  unfold iommufd_object_destroy_user
  dsimp only
  split <;> simp

/-- The registry destroy semantics: with exactly the creating reference
plus the caller reference (two users) the object is destroyed; with more
references only the caller reference is dropped. -/
theorem destroy_user_spec (st : State) (h : Nat) :
    ((st.hwpts h).users = 2 →
      (iommufd_object_destroy_user st h).hwptExists h = false ∧
      ((iommufd_object_destroy_user st h).hwpts h).users = 0) ∧
    ((st.hwpts h).users ≠ 2 →
      (iommufd_object_destroy_user st h).hwptExists h = st.hwptExists h ∧
      ((iommufd_object_destroy_user st h).hwpts h).users
        = (st.hwpts h).users - 1) := by
  unfold iommufd_object_destroy_user
  dsimp only
  split
  · next hu1 =>
    refine ⟨fun _ => ⟨by simp, by simp⟩, fun hne => absurd ?_ hne⟩
    omega
  · next hu1 =>
    refine ⟨fun hu => absurd ?_ hu1, fun _ => ⟨by simp, by simp⟩⟩
    omega

/-- When the detached binding points at an auto domain, detach ends by
destroying it through the registry: the result is the registry destroy of
an intermediate state that kept the users count and existence flag of the
HWPT, followed by the binding cleanup. -/
theorem detach_shape_auto (env : Env) (idev h : Nat) (st : State)
    (hcur : st.idevHwpt idev = some h)
    (hauto : (st.hwpts h).auto_domain = true) :
    ∃ st2 : State,
      iommufd_device_detach env idev st
        = ((iommufd_object_destroy_user st2 h).setIdevHwpt idev
            none).decIdevUsers idev ∧
      (st2.hwpts h).users = (st.hwpts h).users ∧
      st2.hwptExists h = st.hwptExists h := by
  unfold iommufd_device_detach
  rw [hcur]
  dsimp only
  repeat' split
  all_goals
    first
    | exact ⟨_, rfl, by simp, by simp⟩
    | (exfalso; simp_all)

/-- Claim C5 (confirmed): detach removes the device from the HWPT member
list; when the list becomes empty the HWPT is removed from the IOAS member
list and its domain deregistered from the address space translation table;
an auto-created HWPT is then destroyed through the registry exactly when
the detached binding held the last attach reference (two users: the
creating one plus this attach), otherwise one reference is dropped; a
manually created HWPT merely loses the attach-time use reference; and the
binding current-HWPT pointer is cleared with its own use reference
dropped.  The function has no failure result. -/
theorem device_detach_spec (env : Env) (idev h : Nat) (st : State)
    (hcur : st.idevHwpt idev = some h) :
    ((iommufd_device_detach env idev st).hwpts h).devices
      = ((st.hwpts h).devices).erase idev ∧
    (((st.hwpts h).devices).erase idev = [] →
      (iommufd_device_detach env idev st).ioasList (st.hwpts h).ioas
        = ((st.ioasList (st.hwpts h).ioas).erase h) ∧
      (iommufd_device_detach env idev st).domainRegistered h = false) ∧
    ((st.hwpts h).auto_domain = true →
      ((st.hwpts h).users = 2 →
        (iommufd_device_detach env idev st).hwptExists h = false) ∧
      ((st.hwpts h).users ≠ 2 →
        (iommufd_device_detach env idev st).hwptExists h
          = st.hwptExists h ∧
        ((iommufd_device_detach env idev st).hwpts h).users
          = (st.hwpts h).users - 1)) ∧
    ((st.hwpts h).auto_domain = false →
      ((iommufd_device_detach env idev st).hwpts h).users
        = (st.hwpts h).users - 1 ∧
      (iommufd_device_detach env idev st).hwptExists h
        = st.hwptExists h) ∧
    (iommufd_device_detach env idev st).idevHwpt idev = none ∧
    (iommufd_device_detach env idev st).idevUsers idev
      = st.idevUsers idev - 1 := by
  refine ⟨?_, ?_, ?_, ?_, ?_, ?_⟩
  · unfold iommufd_device_detach
    rw [hcur]
    dsimp only
    repeat' split
    all_goals simp
  · intro herase
    unfold iommufd_device_detach
    rw [hcur]
    dsimp only
    repeat' split
    all_goals
      try (exfalso
           simp only [iommufd_hw_pagetable_has_group, State.updHwpt,
             State.setHwpt, fupd] at *
           simp only [herase] at *
           simp_all
           done)
    all_goals
      refine ⟨?_, ?_⟩ <;> simp [herase]
  · intro hauto
    obtain ⟨st2, hshape, hu, he⟩ :=
      detach_shape_auto env idev h st hcur hauto
    obtain ⟨du2, du3⟩ := destroy_user_spec st2 h
    rw [hshape]
    constructor
    · intro h2
      have := du2 (by rw [hu, h2])
      simp [this.1]
    · intro h2
      have := du3 (by rw [hu]; exact h2)
      simp [this.1, this.2, he, hu]
  · intro hman
    unfold iommufd_device_detach
    rw [hcur]
    dsimp only
    repeat' split
    all_goals simp_all
  · unfold iommufd_device_detach
    rw [hcur]
    dsimp only
    repeat' split
    all_goals simp
  · unfold iommufd_device_detach
    rw [hcur]
    dsimp only
    repeat' split
    all_goals simp

/-- Claim C5 witness: the detach specification at a state where device 0 is
the single member of auto-created HWPT 1 holding two references: the member
list empties, the HWPT leaves the IOAS list and the translation table, and
it is destroyed at this last detach. -/
theorem device_detach_spec_witness :
    ((iommufd_device_detach env0 0 stD).hwpts 1).devices
      = ((stD.hwpts 1).devices).erase 0 ∧
    (((stD.hwpts 1).devices).erase 0 = [] →
      (iommufd_device_detach env0 0 stD).ioasList (stD.hwpts 1).ioas
        = ((stD.ioasList (stD.hwpts 1).ioas).erase 1) ∧
      (iommufd_device_detach env0 0 stD).domainRegistered 1 = false) ∧
    ((stD.hwpts 1).auto_domain = true →
      ((stD.hwpts 1).users = 2 →
        (iommufd_device_detach env0 0 stD).hwptExists 1 = false) ∧
      ((stD.hwpts 1).users ≠ 2 →
        (iommufd_device_detach env0 0 stD).hwptExists 1
          = stD.hwptExists 1 ∧
        ((iommufd_device_detach env0 0 stD).hwpts 1).users
          = (stD.hwpts 1).users - 1)) ∧
    ((stD.hwpts 1).auto_domain = false →
      ((iommufd_device_detach env0 0 stD).hwpts 1).users
        = (stD.hwpts 1).users - 1 ∧
      (iommufd_device_detach env0 0 stD).hwptExists 1
        = stD.hwptExists 1) ∧
    (iommufd_device_detach env0 0 stD).idevHwpt 0 = none ∧
    (iommufd_device_detach env0 0 stD).idevUsers 0
      = stD.idevUsers 0 - 1 :=
  device_detach_spec env0 0 1 stD (by decide)

/-- The search loop of auto-domain selection: it never touches object
existence, IOAS member lists or any auto_domain flag; a found outcome
leaves the binding attached to a member whose auto_domain flag is set;
stopped and exhausted outcomes leave the binding pointer as it was. -/
theorem autoSearch_master (env : Env) (idev : Nat) (flags : Flags) :
    ∀ (lst : List Nat) (st : State),
    ((autoSearch env idev flags lst st).state.hwptExists = st.hwptExists ∧
      (autoSearch env idev flags lst st).state.ioasList = st.ioasList ∧
      (∀ h' : Nat, ((autoSearch env idev flags lst st).state.hwpts
        h').auto_domain = (st.hwpts h').auto_domain)) ∧
    (∀ (h' : Nat) (st' : State),
      autoSearch env idev flags lst st = .found h' st' →
      st'.idevHwpt idev = some h' ∧ (st'.hwpts h').auto_domain = true) ∧
    (∀ (rc : Errno) (st' : State),
      autoSearch env idev flags lst st = .stopped rc st' →
      st'.idevHwpt = st.idevHwpt) ∧
    (∀ st' : State, autoSearch env idev flags lst st = .exhausted st' →
      st'.idevHwpt = st.idevHwpt) := by
  intro lst
  induction lst with
  | nil =>
    intro st
    refine ⟨⟨rfl, rfl, fun _ => rfl⟩, ?_, ?_, ?_⟩
    · intro h' st' hf
      exact absurd hf (by simp [autoSearch])
    · intro rc st' hf
      exact absurd hf (by simp [autoSearch])
    · intro st' hf
      have hs : st' = st := by
        have := hf.symm
        injection this
      subst hs
      rfl
  | cons hd rest ih =>
    intro st
    by_cases hskip : (!(st.hwpts hd).auto_domain || (st.hwpts hd).users = 0)
      = true
    · have heq : autoSearch env idev flags (hd :: rest) st
          = autoSearch env idev flags rest st := by
        rw [autoSearch, if_pos hskip]
      rw [heq]
      exact ih st
    · have hauto0 : (st.hwpts hd).auto_domain = true := by
        by_contra hc
        exact hskip (by simp [hc])
      rcases hrun : iommufd_device_do_attach env idev hd flags
        (st.incUsers hd) with ⟨st2, orc⟩
      cases orc with
      | none =>
        have heq : autoSearch env idev flags (hd :: rest) st
            = .found hd (st2.decUsers hd) := by
          rw [autoSearch, if_neg hskip]
          dsimp only
          rw [hrun]
        rw [heq]
        obtain ⟨s1, s2, s3, s4, s5, s6, s7, s8, s9, s10, s11, s12, s13⟩ :=
          do_attach_succ_master env idev hd flags (st.incUsers hd) st2 hrun
        refine ⟨⟨?_, ?_, ?_⟩, ?_, ?_, ?_⟩
        · simp [SearchOutcome.state, s7]
        · simp [SearchOutcome.state, s8]
        · intro h'
          simp only [SearchOutcome.state]
          rcases eq_or_ne h' hd with rfl | hne
          · simp at s5
            simp [s5]
          · have := s10 h' hne
            simp [hne] at this
            simp [hne, this]
        · intro h' st' hf
          injection hf with hf1 hf2
          subst hf1
          subst hf2
          constructor
          · simp [s1]
          · simp at s5
            simp [s5, hauto0]
        · intro rc st' hf
          exact absurd hf (by simp)
        · intro st' hf
          exact absurd hf (by simp)
      | some e =>
        obtain ⟨f1, f2, f3, f4, f5, f6, f7, f8, f9, f10, f11⟩ :=
          do_attach_fail_master env idev hd flags (st.incUsers hd) st2 e hrun
        have hex : st2.hwptExists = st.hwptExists := by
          rw [f7]
          simp
        have hio : st2.ioasList = st.ioasList := by
          rw [f8]
          simp
        have hauto : ∀ h' : Nat,
            ((st2.decUsers hd).hwpts h').auto_domain
              = (st.hwpts h').auto_domain := by
          intro h'
          have := f9 h'
          rcases eq_or_ne h' hd with rfl | hne
          · simp at this
            simp [this]
          · simp [hne] at this
            simp [hne, this]
        have hidev : (st2.decUsers hd).idevHwpt = st.idevHwpt := by
          simp [f3]
        cases e
        next =>
          have heq : autoSearch env idev flags (hd :: rest) st
              = autoSearch env idev flags rest (st2.decUsers hd) := by
            rw [autoSearch, if_neg hskip]
            dsimp only
            rw [hrun]
          rw [heq]
          obtain ⟨⟨i1, i2, i3⟩, i4, i5, i6⟩ := ih (st2.decUsers hd)
          refine ⟨⟨by rw [i1]; simp [hex], by rw [i2]; simp [hio], ?_⟩,
            ?_, ?_, ?_⟩
          · intro h'
            rw [i3 h', hauto h']
          · intro h' st' hf
            exact i4 h' st' hf
          · intro rc st' hf
            rw [i5 rc st' hf, hidev]
          · intro st' hf
            rw [i6 st' hf, hidev]
        next =>
          have heq : autoSearch env idev flags (hd :: rest) st
              = .stopped .ENODEV (st2.decUsers hd) := by
            rw [autoSearch, if_neg hskip]
            dsimp only
            rw [hrun]
          rw [heq]
          refine ⟨⟨by simp [SearchOutcome.state, hex],
            by simp [SearchOutcome.state, hio], ?_⟩, ?_, ?_, ?_⟩
          · intro h'
            simp only [SearchOutcome.state]
            exact hauto h'
          · intro h' st' hf
            exact absurd hf (by simp)
          · intro rc st' hf
            injection hf with hf1 hf2
            subst hf2
            exact hidev
          · intro st' hf
            exact absurd hf (by simp)
        next =>
          have heq : autoSearch env idev flags (hd :: rest) st
              = .stopped .EBUSY (st2.decUsers hd) := by
            rw [autoSearch, if_neg hskip]
            dsimp only
            rw [hrun]
          rw [heq]
          refine ⟨⟨by simp [SearchOutcome.state, hex],
            by simp [SearchOutcome.state, hio], ?_⟩, ?_, ?_, ?_⟩
          · intro h'
            simp only [SearchOutcome.state]
            exact hauto h'
          · intro h' st' hf
            exact absurd hf (by simp)
          · intro rc st' hf
            injection hf with hf1 hf2
            subst hf2
            exact hidev
          · intro st' hf
            exact absurd hf (by simp)
        next =>
          have heq : autoSearch env idev flags (hd :: rest) st
              = .stopped .ENOMEM (st2.decUsers hd) := by
            rw [autoSearch, if_neg hskip]
            dsimp only
            rw [hrun]
          rw [heq]
          refine ⟨⟨by simp [SearchOutcome.state, hex],
            by simp [SearchOutcome.state, hio], ?_⟩, ?_, ?_, ?_⟩
          · intro h'
            simp only [SearchOutcome.state]
            exact hauto h'
          · intro h' st' hf
            exact absurd hf (by simp)
          · intro rc st' hf
            injection hf with hf1 hf2
            subst hf2
            exact hidev
          · intro st' hf
            exact absurd hf (by simp)
        next =>
          have heq : autoSearch env idev flags (hd :: rest) st
              = .stopped .EPERM (st2.decUsers hd) := by
            rw [autoSearch, if_neg hskip]
            dsimp only
            rw [hrun]
          rw [heq]
          refine ⟨⟨by simp [SearchOutcome.state, hex],
            by simp [SearchOutcome.state, hio], ?_⟩, ?_, ?_, ?_⟩
          · intro h'
            simp only [SearchOutcome.state]
            exact hauto h'
          · intro h' st' hf
            exact absurd hf (by simp)
          · intro rc st' hf
            injection hf with hf1 hf2
            subst hf2
            exact hidev
          · intro st' hf
            exact absurd hf (by simp)

/-- Claim C3 (confirmed): auto-domain selection only ever attaches to an
HWPT whose auto_domain flag is set; when the scan finds an auto-created
member that accepts the device (retrying past EINVAL failures), the device
is attached to it and no fresh HWPT is created or listed; when the scan is
exhausted and allocation succeeds, a fresh HWPT is created, marked
auto-created, attached and appended to the IOAS member list on success,
and on attach failure it is destroyed, leaving the member list exactly as
before so the fresh HWPT was never visible. -/
theorem auto_get_domain_claim (env : Env) (idev ioas freshId : Nat)
    (flags : Flags) (st : State)
    (hfr1 : st.hwptExists freshId = false)
    (hfr2 : freshId ∉ st.ioasList ioas) :
    ((iommufd_device_auto_get_domain env idev ioas freshId flags st).2
        = none →
      ∃ h' : Nat,
        (iommufd_device_auto_get_domain env idev ioas freshId flags
          st).1.idevHwpt idev = some h' ∧
        ((iommufd_device_auto_get_domain env idev ioas freshId flags
          st).1.hwpts h').auto_domain = true) ∧
    (∀ h' : Nat,
      (autoSearch env idev flags (st.ioasList ioas) st).foundId = some h' →
      iommufd_device_auto_get_domain env idev ioas freshId flags st
        = ((autoSearch env idev flags (st.ioasList ioas) st).state, none) ∧
      (autoSearch env idev flags (st.ioasList ioas) st).state.idevHwpt idev
        = some h' ∧
      ((autoSearch env idev flags (st.ioasList ioas) st).state.hwpts
        h').auto_domain = true ∧
      (autoSearch env idev flags (st.ioasList ioas) st).state.hwptExists
        freshId = false ∧
      (autoSearch env idev flags (st.ioasList ioas) st).state.ioasList ioas
        = st.ioasList ioas) ∧
    ((autoSearch env idev flags (st.ioasList ioas) st).foundId = none →
      (autoSearch env idev flags (st.ioasList ioas) st).errOf = none →
      env.allocHwptRc = none →
      (((iommufd_device_auto_get_domain env idev ioas freshId flags st).2
          = none →
        (iommufd_device_auto_get_domain env idev ioas freshId flags
          st).1.idevHwpt idev = some freshId ∧
        ((iommufd_device_auto_get_domain env idev ioas freshId flags
          st).1.hwpts freshId).auto_domain = true ∧
        (iommufd_device_auto_get_domain env idev ioas freshId flags
          st).1.ioasList ioas = st.ioasList ioas ++ [freshId] ∧
        (iommufd_device_auto_get_domain env idev ioas freshId flags
          st).1.hwptExists freshId = true) ∧
      (∀ rc : Errno,
        (iommufd_device_auto_get_domain env idev ioas freshId flags st).2
          = some rc →
        (iommufd_device_auto_get_domain env idev ioas freshId flags
          st).1.hwptExists freshId = false ∧
        (iommufd_device_auto_get_domain env idev ioas freshId flags
          st).1.ioasList ioas = st.ioasList ioas ∧
        freshId ∉ (iommufd_device_auto_get_domain env idev ioas freshId
          flags st).1.ioasList ioas))) := by
  obtain ⟨⟨a1, a2, a3⟩, a4, a5, a6⟩ :=
    autoSearch_master env idev flags (st.ioasList ioas) st
  rcases hout : autoSearch env idev flags (st.ioasList ioas) st with
    ⟨hfnd, st'⟩ | ⟨rc0, st'⟩ | st'
  · -- found
    rw [hout] at a1 a2 a3
    simp only [SearchOutcome.state] at a1 a2 a3
    have hag : iommufd_device_auto_get_domain env idev ioas freshId flags st
        = (st', none) := by
      rw [iommufd_device_auto_get_domain, hout]
    obtain ⟨b1, b2⟩ := a4 hfnd st' hout
    refine ⟨?_, ?_, ?_⟩
    · intro _
      rw [hag]
      exact ⟨hfnd, b1, b2⟩
    · intro h'' hfid
      simp only [SearchOutcome.foundId, Option.some.injEq] at hfid
      subst hfid
      simp only [SearchOutcome.state]
      exact ⟨hag, b1, b2, by rw [a1, hfr1], congrFun a2 ioas⟩
    · intro hfid
      simp [SearchOutcome.foundId] at hfid
  · -- stopped
    have hag : iommufd_device_auto_get_domain env idev ioas freshId flags st
        = (st', some rc0) := by
      rw [iommufd_device_auto_get_domain, hout]
    refine ⟨?_, ?_, ?_⟩
    · intro h2
      rw [hag] at h2
      simp at h2
    · intro h'' hfid
      simp [SearchOutcome.foundId] at hfid
    · intro _ herr
      simp [SearchOutcome.errOf] at herr
  · -- exhausted
    rw [hout] at a1 a2 a3
    simp only [SearchOutcome.state] at a1 a2 a3
    rcases halloc : env.allocHwptRc with _ | rcA
    · -- allocation succeeds
      rcases hrun2 : iommufd_device_do_attach env idev freshId flags
          (((st'.setHwpt freshId (newHwptFor ioas)).setHwptExists freshId
            true).updHwpt freshId
            (fun hw => { hw with auto_domain := true })) with ⟨post, orc2⟩
      cases orc2 with
      | none =>
        have hag : iommufd_device_auto_get_domain env idev ioas freshId
            flags st = (post.appendIoas ioas freshId, none) := by
          rw [iommufd_device_auto_get_domain, hout]
          dsimp only
          rw [halloc]
          dsimp only
          rw [hrun2]
        obtain ⟨s1, s2, s3, s4, s5, s6, s7, s8, s9, s10, s11, s12, s13⟩ :=
          do_attach_succ_master env idev freshId flags _ post hrun2
        refine ⟨?_, ?_, ?_⟩
        · intro _
          rw [hag]
          refine ⟨freshId, by simp [s1], ?_⟩
          simp at s5
          simp [s5]
        · intro h'' hfid
          simp [SearchOutcome.foundId] at hfid
        · intro _ _ _
          constructor
          · intro _
            rw [hag]
            refine ⟨by simp [s1], ?_, ?_, ?_⟩
            · simp at s5
              simp [s5]
            · rw [show (post.appendIoas ioas freshId).ioasList ioas
                  = post.ioasList ioas ++ [freshId] by simp]
              rw [s8]
              simp [a2]
            · simp [s7]
          · intro rc hrc
            rw [hag] at hrc
            simp at hrc
      | some e2 =>
        have hag : iommufd_device_auto_get_domain env idev ioas freshId
            flags st
            = (iommufd_object_abort_and_destroy post freshId, some e2) := by
          rw [iommufd_device_auto_get_domain, hout]
          dsimp only
          rw [halloc]
          dsimp only
          rw [hrun2]
        obtain ⟨f1, f2, f3, f4, f5, f6, f7, f8, f9, f10, f11⟩ :=
          do_attach_fail_master env idev freshId flags _ post e2 hrun2
        refine ⟨?_, ?_, ?_⟩
        · intro h2
          rw [hag] at h2
          simp at h2
        · intro h'' hfid
          simp [SearchOutcome.foundId] at hfid
        · intro _ _ _
          constructor
          · intro h2
            rw [hag] at h2
            simp at h2
          · intro rc hrc
            have hlist : (iommufd_object_abort_and_destroy post
                freshId).ioasList ioas = st.ioasList ioas := by
              unfold iommufd_object_abort_and_destroy
              simp
              rw [f8]
              simp [a2]
            rw [hag]
            refine ⟨?_, hlist, ?_⟩
            · unfold iommufd_object_abort_and_destroy
              simp
            · rw [hlist]
              exact hfr2
    · -- allocation fails
      have hag : iommufd_device_auto_get_domain env idev ioas freshId flags
          st = (st', some rcA) := by
        rw [iommufd_device_auto_get_domain, hout]
        dsimp only
        rw [halloc]
      refine ⟨?_, ?_, ?_⟩
      · intro h2
        rw [hag] at h2
        simp at h2
      · intro h'' hfid
        simp [SearchOutcome.foundId] at hfid
      · intro _ _ hal
        exact Option.noConfusion hal

/-- Claim C3 witness: the auto-selection theorem at three concrete runs —
reusing the auto member HWPT 3 of a populated IOAS, creating and listing
the fresh HWPT 99 on an empty IOAS, and destroying the fresh HWPT when its
attach fails. -/
theorem auto_get_domain_claim_witness :
    (iommufd_device_auto_get_domain env0 0 0 99 fl0 stA
        = ((autoSearch env0 0 fl0 (stA.ioasList 0) stA).state, none) ∧
      (autoSearch env0 0 fl0 (stA.ioasList 0) stA).state.idevHwpt 0
        = some 3 ∧
      ((autoSearch env0 0 fl0 (stA.ioasList 0) stA).state.hwpts
        3).auto_domain = true ∧
      (autoSearch env0 0 fl0 (stA.ioasList 0) stA).state.hwptExists 99
        = false ∧
      (autoSearch env0 0 fl0 (stA.ioasList 0) stA).state.ioasList 0
        = stA.ioasList 0) ∧
    ((iommufd_device_auto_get_domain env0 0 0 99 fl0 st0).1.idevHwpt 0
        = some 99 ∧
      ((iommufd_device_auto_get_domain env0 0 0 99 fl0 st0).1.hwpts
        99).auto_domain = true ∧
      (iommufd_device_auto_get_domain env0 0 0 99 fl0 st0).1.ioasList 0
        = st0.ioasList 0 ++ [99] ∧
      (iommufd_device_auto_get_domain env0 0 0 99 fl0 st0).1.hwptExists 99
        = true) ∧
    ((iommufd_device_auto_get_domain envC3 0 0 99 fl0 st0).1.hwptExists 99
        = false ∧
      (iommufd_device_auto_get_domain envC3 0 0 99 fl0 st0).1.ioasList 0
        = st0.ioasList 0 ∧
      99 ∉ (iommufd_device_auto_get_domain envC3 0 0 99 fl0
        st0).1.ioasList 0) :=
  ⟨(auto_get_domain_claim env0 0 0 99 fl0 stA (by decide)
      (by decide)).2.1 3 (by decide),
   ((auto_get_domain_claim env0 0 0 99 fl0 st0 (by decide)
      (by decide)).2.2 (by decide) (by decide) rfl).1 (by decide),
   ((auto_get_domain_claim envC3 0 0 99 fl0 st0 (by decide)
      (by decide)).2.2 (by decide) (by decide) rfl).2 .ENOMEM (by decide)⟩
